import Mathlib

/-!
Verification of the DynaChem physics core: a shallow embedding of the
force laws (`src/physics/coulomb.rs`, `src/input/spring.rs`), the
Velocity-Verlet integrator (`src/physics/simulation.rs`), the touch-input
anchor (`src/input/spring.rs`) and the per-frame driver systems of
`src/main.rs`, with theorems checking the specification's claims about
them.  `f64` values are modelled by real numbers; a Rust `assert!` failure
(panic) is modelled by `Option.none`.
-/

namespace DynaChem

noncomputable section

/-- Mirrors `glam::DVec3`: a 3-vector of `f64` components. -/
structure Vec3 where
  x : ℝ
  y : ℝ
  z : ℝ

theorem Vec3.ext_iff {a b : Vec3} : a = b ↔ a.x = b.x ∧ a.y = b.y ∧ a.z = b.z := by
  cases a; cases b; simp [Vec3.mk.injEq]

/-- `DVec3::ZERO`. -/
def Vec3.zero : Vec3 := ⟨0, 0, 0⟩

instance : Add Vec3 := ⟨fun a b => ⟨a.x + b.x, a.y + b.y, a.z + b.z⟩⟩

instance : Sub Vec3 := ⟨fun a b => ⟨a.x - b.x, a.y - b.y, a.z - b.z⟩⟩

/-- Componentwise negation, `-v`. -/
def Vec3.neg (v : Vec3) : Vec3 := ⟨-v.x, -v.y, -v.z⟩

/-- Scalar multiplication `c * v` (componentwise, as in glam). -/
def Vec3.scale (c : ℝ) (v : Vec3) : Vec3 := ⟨c * v.x, c * v.y, c * v.z⟩

/-- Scalar division `v / c` (componentwise, as in glam). -/
def Vec3.div (v : Vec3) (c : ℝ) : Vec3 := ⟨v.x / c, v.y / c, v.z / c⟩

/-- `DVec3::length_squared`. -/
def Vec3.normSq (v : Vec3) : ℝ := v.x * v.x + v.y * v.y + v.z * v.z

/-- `DVec3::length`. -/
def Vec3.length (v : Vec3) : ℝ := Real.sqrt v.normSq

/-- `DVec3::normalize`: `v / v.length()`. -/
def Vec3.normalize (v : Vec3) : Vec3 := v.div v.length

theorem Vec3.add_def (a b : Vec3) : a + b = ⟨a.x + b.x, a.y + b.y, a.z + b.z⟩ := rfl

theorem Vec3.sub_def (a b : Vec3) : a - b = ⟨a.x - b.x, a.y - b.y, a.z - b.z⟩ := rfl

theorem Vec3.normSq_nonneg (v : Vec3) : 0 ≤ v.normSq := by
  have hx := mul_self_nonneg v.x
  have hy := mul_self_nonneg v.y
  have hz := mul_self_nonneg v.z
  unfold Vec3.normSq; linarith

theorem Vec3.length_nonneg (v : Vec3) : 0 ≤ v.length := Real.sqrt_nonneg _

/-- The length is zero exactly on the zero vector. -/
theorem Vec3.length_eq_zero_iff (v : Vec3) : v.length = 0 ↔ v = Vec3.zero := by
  unfold Vec3.length
  rw [Real.sqrt_eq_zero (Vec3.normSq_nonneg v)]
  constructor
  · intro h
    have hx := mul_self_nonneg v.x
    have hy := mul_self_nonneg v.y
    have hz := mul_self_nonneg v.z
    unfold Vec3.normSq at h
    have hx0 : v.x * v.x = 0 := by linarith
    have hy0 : v.y * v.y = 0 := by linarith
    have hz0 : v.z * v.z = 0 := by linarith
    have : v.x = 0 := by nlinarith [sq_nonneg v.x]
    have : v.y = 0 := by nlinarith [sq_nonneg v.y]
    have : v.z = 0 := by nlinarith [sq_nonneg v.z]
    cases v
    simp_all [Vec3.zero]
  · intro h; subst h; simp [Vec3.normSq, Vec3.zero]

theorem Vec3.length_pos_of_ne (v : Vec3) (h : v ≠ Vec3.zero) : 0 < v.length := by
  rcases lt_or_eq_of_le (Vec3.length_nonneg v) with hlt | heq
  · exact hlt
  · exact absurd ((Vec3.length_eq_zero_iff v).mp heq.symm) h

theorem Vec3.length_scale (c : ℝ) (v : Vec3) :
    (Vec3.scale c v).length = |c| * v.length := by
  unfold Vec3.length Vec3.scale Vec3.normSq
  have h : c * v.x * (c * v.x) + c * v.y * (c * v.y) + c * v.z * (c * v.z)
      = (c * c) * (v.x * v.x + v.y * v.y + v.z * v.z) := by ring
  simp only [h]
  rw [Real.sqrt_mul (mul_self_nonneg c)]
  congr 1
  rw [Real.sqrt_mul_self_eq_abs]

/-! ## Physical constants (`src/physics/constants.rs`) -/

/-- Elementary charge (Coulombs). -/
def ELEMENTARY_CHARGE : ℝ := 1.602176634e-19

/-- Coulomb constant k = 1/(4 pi eps0) (N m^2 / C^2). -/
def COULOMB_CONSTANT : ℝ := 8.9875517923e9

/-- Electron mass (kg). -/
def ELECTRON_MASS : ℝ := 9.1093837015e-31

/-- Proton mass (kg). -/
def PROTON_MASS : ℝ := 1.67262192369e-27

/-- Bohr radius (m). -/
def BOHR_RADIUS : ℝ := 5.29177210903e-11

/-- One Angstrom (m). -/
def ANGSTROM : ℝ := 1.0e-10

/-! ## Coulomb force law (`src/physics/coulomb.rs`) -/

/-- `coulomb_force(q1, q2, r1, r2)`: force on charge 1 due to charge 2.
The Rust code asserts `distance > 0.0` and panics otherwise; a panic is
modelled by `none`. -/
def coulomb_force (q1 q2 : ℝ) (r1 r2 : Vec3) : Option Vec3 :=
  let displacement := r1 - r2
  let distance := displacement.length
  if 0 < distance then
    let magnitude := COULOMB_CONSTANT * q1 * q2 / (distance * distance)
    let direction := displacement.div distance
    some (Vec3.scale magnitude direction)
  else
    none

/-- `coulomb_force_magnitude(q1, q2, distance)`; panics (`none`) unless
`distance > 0.0`. -/
def coulomb_force_magnitude (q1 q2 distance : ℝ) : Option ℝ :=
  if 0 < distance then
    some (COULOMB_CONSTANT * q1 * q2 / (distance * distance))
  else
    none

/-! ## Virtual spring (`src/input/spring.rs`) -/

/-- `SpringConfig`: plain record, constructed without any validation. -/
structure SpringConfig where
  stiffness : ℝ
  damping : ℝ
  max_force : ℝ

/-- `SpringConfig::default()`. -/
def SpringConfig.default : SpringConfig := ⟨1.0e-6, 1.0e-12, 1.0e-6⟩

/-- `spring_force(particle_pos, particle_vel, target_pos, config)`. -/
def spring_force (particle_pos particle_vel target_pos : Vec3)
    (config : SpringConfig) : Vec3 :=
  let displacement := target_pos - particle_pos
  let spring_f := Vec3.scale config.stiffness displacement
  let damping_f := Vec3.scale (-config.damping) particle_vel
  let total_force := spring_f + damping_f
  let force_magnitude := total_force.length
  if config.max_force < force_magnitude then
    Vec3.scale config.max_force total_force.normalize
  else
    total_force

/-- `spring_stretch(particle_pos, target_pos)`. -/
def spring_stretch (particle_pos target_pos : Vec3) : ℝ :=
  (target_pos - particle_pos).length

/-! ## Integratable particles (`src/physics/simulation.rs`,
`src/particles/proton.rs`, `src/particles/electron.rs`)

The `Integratable` trait exposes position, velocity, accumulated force and
mass; `Proton`/`Electron` store the three vectors and report their species
mass constant.  The trait view is embedded as one record carrying the
species mass. -/

structure Particle where
  position : Vec3
  velocity : Vec3
  force : Vec3
  mass : ℝ

/-- `Proton::charge()` = +e. -/
def Proton.charge : ℝ := ELEMENTARY_CHARGE

/-- `Electron::charge()` = -e. -/
def Electron.charge : ℝ := -ELEMENTARY_CHARGE

/-- `Proton::new(position)`: at rest, zero force, proton mass. -/
def Proton.new (position : Vec3) : Particle :=
  ⟨position, Vec3.zero, Vec3.zero, PROTON_MASS⟩

/-- `Electron::new(position)`. -/
def Electron.new (position : Vec3) : Particle :=
  ⟨position, Vec3.zero, Vec3.zero, ELECTRON_MASS⟩

/-- `apply_force`: accumulate a force. -/
def Particle.apply_force (p : Particle) (f : Vec3) : Particle :=
  { p with force := p.force + f }

/-- `clear_forces`: reset the accumulator to zero. -/
def Particle.clear_forces (p : Particle) : Particle :=
  { p with force := Vec3.zero }

/-! ## Velocity-Verlet integrator (`src/physics/simulation.rs`) -/

/-- `verlet_position_step(particle, dt)`: phase 1.  Updates the position to
`pos + vel*dt + 0.5*accel*dt*dt` and returns the old acceleration
`force/mass`. -/
def verlet_position_step (p : Particle) (dt : ℝ) : Particle × Vec3 :=
  let accel := p.force.div p.mass
  let new_pos := p.position + Vec3.scale dt p.velocity
      + Vec3.scale (0.5 * dt * dt) accel
  ({ p with position := new_pos }, accel)

/-- `verlet_velocity_step(particle, old_accel, dt)`: phase 2.  Updates the
velocity to `vel + 0.5*(old_accel + new_accel)*dt` where `new_accel` is
`force/mass` at the (supposedly recomputed) current force. -/
def verlet_velocity_step (p : Particle) (old_accel : Vec3) (dt : ℝ) : Particle :=
  let new_accel := p.force.div p.mass
  { p with velocity := p.velocity + Vec3.scale (0.5 * dt) (old_accel + new_accel) }

/-- `kinetic_energy(particle)` = `0.5 * mass * |vel|^2`. -/
def kinetic_energy (p : Particle) : ℝ :=
  0.5 * p.mass * p.velocity.normSq

/-! ## Touch input anchor (`src/input/spring.rs`)

Bevy `Entity` identifiers are modelled by natural numbers (in the driver
below, a particle's index in the proton list). -/

structure TouchInput where
  active : Bool
  position : Vec3
  selected_entity : Option ℕ

/-- `TouchInput::default()`: inactive, zero position, nothing selected. -/
def TouchInput.default : TouchInput := ⟨false, Vec3.zero, none⟩

/-- `TouchInput::begin(position, entity)`. -/
def TouchInput.begin (t : TouchInput) (position : Vec3) (entity : ℕ) : TouchInput :=
  { t with active := true, position := position, selected_entity := some entity }

/-- `TouchInput::update_position(position)`. -/
def TouchInput.update_position (t : TouchInput) (position : Vec3) : TouchInput :=
  { t with position := position }

/-- `TouchInput::end()` (named `endDrag` because `end` is reserved). -/
def TouchInput.endDrag (t : TouchInput) : TouchInput :=
  { t with active := false, selected_entity := none }

/-- One call to the anchor's mutating interface. -/
inductive TouchOp where
  | begin (position : Vec3) (entity : ℕ)
  | update (position : Vec3)
  | finish

/-- Dispatch one operation. -/
def TouchInput.apply (t : TouchInput) : TouchOp → TouchInput
  | .begin position entity => t.begin position entity
  | .update position => t.update_position position
  | .finish => t.endDrag

/-- The anchor after a sequence of operations, starting from the default. -/
def TouchInput.run (ops : List TouchOp) : TouchInput :=
  ops.foldl TouchInput.apply TouchInput.default

/-! ## Per-frame driver systems (`src/main.rs`)

The Bevy queries are modelled as two lists of particles; an entity is a
proton's index in the proton list. -/

structure World where
  protons : List Particle
  electrons : List Particle

/-- `apply_spring_force` system: if the anchor is active, apply the spring
force to the selected proton; otherwise do nothing. -/
def apply_spring_force (touch : TouchInput) (cfg : SpringConfig) (w : World) : World :=
  if touch.active then
    match touch.selected_entity with
    | none => w
    | some sel =>
      { w with protons := w.protons.mapIdx (fun i p =>
          if i = sel then
            p.apply_force (spring_force p.position p.velocity touch.position cfg)
          else p) }
  else
    w

/-- Accumulate onto `p` the Coulomb forces from every source in `srcs`
(position, charge), in list order; `none` if any pair is coincident. -/
def add_coulomb_from (q_self : ℝ) (srcs : List (Vec3 × ℝ)) (p : Particle) :
    Option Particle :=
  srcs.foldl
    (fun acc src => acc.bind (fun q =>
      (coulomb_force q_self src.2 q.position src.1).map q.apply_force))
    (some p)

/-- `apply_coulomb_forces` system: snapshot positions and charges, then
accumulate every pairwise proton-electron Coulomb force. -/
def apply_coulomb_forces (w : World) : Option World := do
  let proton_data := w.protons.map (fun p => (p.position, Proton.charge))
  let electron_data := w.electrons.map (fun e => (e.position, Electron.charge))
  let ps ← w.protons.mapM (add_coulomb_from Proton.charge electron_data)
  let es ← w.electrons.mapM (add_coulomb_from Electron.charge proton_data)
  pure ⟨ps, es⟩

/-- What `physics_step` does to one particle in one substep: phase 1, then
immediately phase 2 with the unchanged accumulated force, then clear. -/
def substep_particle (sub_dt : ℝ) (p : Particle) : Particle :=
  let r := verlet_position_step p sub_dt
  (verlet_velocity_step r.1 r.2 sub_dt).clear_forces

/-- One substep of `physics_step`: all protons, then all electrons. -/
def code_substep (sub_dt : ℝ) (w : World) : World :=
  ⟨w.protons.map (substep_particle sub_dt), w.electrons.map (substep_particle sub_dt)⟩

/-- The fixed substep count of `physics_step`. -/
def SUBSTEPS : ℕ := 10

/-- `physics_step` system: 10 substeps of `dt / 10` each. -/
def physics_step (dt : ℝ) (w : World) : World :=
  (code_substep (dt / (SUBSTEPS : ℝ)))^[SUBSTEPS] w

/-- Modelled from the spec (section 4.5 Substep Driver): one substep as the
specification describes it — phase 1 for *all* particles first; then all
pairwise Coulomb forces recomputed at the freshly advanced positions (with
the spring force on the selected particle when the anchor is active); only
then phase 2 for each particle with its saved old acceleration; finally
clear all forces.  `main.rs` contains no such routine; this definition is
the comparison target for the ordering claim. -/
def spec_substep (touch : TouchInput) (cfg : SpringConfig) (sub_dt : ℝ)
    (w : World) : Option World :=
  let pPhase1 := w.protons.map (fun p => verlet_position_step p sub_dt)
  let ePhase1 := w.electrons.map (fun e => verlet_position_step e sub_dt)
  let advanced : World :=
    ⟨pPhase1.map (fun r => r.1.clear_forces), ePhase1.map (fun r => r.1.clear_forces)⟩
  match apply_coulomb_forces (apply_spring_force touch cfg advanced) with
  | none => none
  | some forced =>
    some ⟨(forced.protons.zip (pPhase1.map (fun r => r.2))).map
            (fun pa => (verlet_velocity_step pa.1 pa.2 sub_dt).clear_forces),
          (forced.electrons.zip (ePhase1.map (fun r => r.2))).map
            (fun pa => (verlet_velocity_step pa.1 pa.2 sub_dt).clear_forces)⟩

/-- The raw (unclamped) spring force, `stiffness*(target-pos) - damping*vel`,
the value the code names `total_force` before the clamp. -/
def spring_raw (cfg : SpringConfig) (particle_pos particle_vel target_pos : Vec3) : Vec3 :=
  Vec3.scale cfg.stiffness (target_pos - particle_pos)
    + Vec3.scale (-cfg.damping) particle_vel

/-! ## Harmonic-oscillator integration (the energy-conservation scenario of
the spec, section 8 item 7, run through the embedded integrator exactly as
`harmonic_oscillator_conserves_energy` in `src/physics/simulation.rs` does:
phase 1, recompute `F = -k*x` at the new position, phase 2). -/

/-- `F = -k*x` with `k = 1`, as `DVec3::new(-k * position.x, 0.0, 0.0)`. -/
def sho_force_at (pos : Vec3) : Vec3 := ⟨-(1 : ℝ) * pos.x, 0, 0⟩

/-- The scenario's timestep `dt = 0.001`. -/
def SHO_DT : ℝ := 0.001

/-- One full Verlet step of the oscillator: position step, force
recomputation at the new position, velocity step. -/
def sho_step (p : Particle) : Particle :=
  let r := verlet_position_step p SHO_DT
  verlet_velocity_step { r.1 with force := sho_force_at r.1.position } r.2 SHO_DT

/-- Initial state: `m = 1`, `x0 = (1,0,0)`, at rest, force `-k*x0`. -/
def sho_init : Particle := ⟨⟨1, 0, 0⟩, Vec3.zero, sho_force_at ⟨1, 0, 0⟩, 1⟩

/-- The oscillator after `n` Verlet steps. -/
def sho_state (n : ℕ) : Particle := sho_step^[n] sho_init

/-- Total mechanical energy `0.5*k*x^2 + 0.5*m*|v|^2` with `k = 1`. -/
def sho_energy (p : Particle) : ℝ :=
  0.5 * 1 * p.position.x ^ 2 + kinetic_energy p

/-! ## Helper lemmas -/

theorem Vec3.sub_eq_zero_iff (a b : Vec3) : a - b = Vec3.zero ↔ a = b := by
  cases a; cases b
  simp [Vec3.sub_def, Vec3.zero, Vec3.mk.injEq, sub_eq_zero]

theorem Vec3.length_sub_comm (a b : Vec3) : (a - b).length = (b - a).length := by
  unfold Vec3.length; congr 1
  cases a; cases b
  simp only [Vec3.sub_def, Vec3.normSq]; ring

theorem Vec3.length_mk_x (d : ℝ) : (Vec3.mk d 0 0).length = |d| := by
  unfold Vec3.length Vec3.normSq
  norm_num [Real.sqrt_mul_self_eq_abs]

/-- Evaluation of the Coulomb force for unit separation along the x-axis. -/
theorem coulomb_force_unit_x (q1 q2 : ℝ) :
    coulomb_force q1 q2 ⟨1, 0, 0⟩ ⟨0, 0, 0⟩
      = some ⟨COULOMB_CONSTANT * q1 * q2, 0, 0⟩ := by
  have hsub : ((⟨1, 0, 0⟩ : Vec3) - ⟨0, 0, 0⟩) = ⟨1, 0, 0⟩ := by
    simp [Vec3.sub_def]
  have hlen : (Vec3.mk (1 : ℝ) 0 0).length = 1 := by
    rw [Vec3.length_mk_x]; norm_num
  simp only [coulomb_force, hsub, hlen]
  rw [if_pos one_pos]
  simp [Vec3.scale, Vec3.div, Vec3.mk.injEq]

/-- Evaluation of the Coulomb force for unit separation along the negative
x-axis. -/
theorem coulomb_force_unit_x_neg (q1 q2 : ℝ) :
    coulomb_force q1 q2 ⟨0, 0, 0⟩ ⟨1, 0, 0⟩
      = some ⟨-(COULOMB_CONSTANT * q1 * q2), 0, 0⟩ := by
  have hsub : ((⟨0, 0, 0⟩ : Vec3) - ⟨1, 0, 0⟩) = ⟨-1, 0, 0⟩ := by
    simp [Vec3.sub_def]
  have hlen : (Vec3.mk (-1 : ℝ) 0 0).length = 1 := by
    rw [Vec3.length_mk_x]; norm_num
  simp only [coulomb_force, hsub, hlen]
  rw [if_pos one_pos]
  simp [Vec3.scale, Vec3.div, Vec3.mk.injEq]

/-- The basic positivity facts about the constants the examples use. -/
theorem constants_pos :
    0 < COULOMB_CONSTANT ∧ 0 < ELEMENTARY_CHARGE ∧ 0 < ELECTRON_MASS
      ∧ 0 < PROTON_MASS := by
  refine ⟨?_, ?_, ?_, ?_⟩ <;> norm_num [COULOMB_CONSTANT, ELEMENTARY_CHARGE,
    ELECTRON_MASS, PROTON_MASS]

/-- Shared evaluation: the spring force at a unit displacement under a
configuration whose `max_force` is `-1` (the clamp branch fires and scales
by the negative bound). -/
theorem spring_force_neg_clamp_eval :
    spring_force ⟨0, 0, 0⟩ ⟨0, 0, 0⟩ ⟨1, 0, 0⟩ ⟨1, 0, -1⟩ = Vec3.mk (-1) 0 0 := by
  have htotal :
      Vec3.scale (1 : ℝ) ((⟨1,0,0⟩ : Vec3) - ⟨0,0,0⟩) + Vec3.scale (-(0:ℝ)) ⟨0,0,0⟩
        = ⟨1, 0, 0⟩ := by
    simp [Vec3.sub_def, Vec3.scale, Vec3.add_def]
  simp only [spring_force, htotal]
  rw [Vec3.length_mk_x]
  norm_num
  norm_num [Vec3.normalize, Vec3.length_mk_x, Vec3.div, Vec3.scale, Vec3.mk.injEq]

/-- The spring system does nothing while the anchor is inactive. -/
theorem apply_spring_force_of_inactive (touch : TouchInput) (cfg : SpringConfig)
    (w : World) (h : touch.active = false) : apply_spring_force touch cfg w = w := by
  simp [apply_spring_force, h]

/-- Phase 1 on a particle at rest with no accumulated force moves nothing
and returns zero acceleration. -/
theorem verlet_position_step_rest (pos : Vec3) (m sub_dt : ℝ) :
    verlet_position_step ⟨pos, Vec3.zero, Vec3.zero, m⟩ sub_dt
      = (⟨pos, Vec3.zero, Vec3.zero, m⟩, ⟨0, 0, 0⟩) := by
  cases pos
  simp [verlet_position_step, Vec3.div, Vec3.scale, Vec3.add_def, Vec3.zero,
    Prod.ext_iff, Particle.mk.injEq, Vec3.mk.injEq]

/-! ## The 1D recurrence the harmonic-oscillator run follows -/

/-- The x-coordinate after one oscillator step. -/
def sho_x (x v : ℝ) : ℝ := x + v * SHO_DT - 0.5 * SHO_DT * SHO_DT * x

/-- The x-velocity after one oscillator step. -/
def sho_v (x v : ℝ) : ℝ := v - 0.5 * SHO_DT * (x + sho_x x v)

/-- One oscillator step in closed form. -/
theorem sho_step_eval (x v : ℝ) :
    sho_step ⟨⟨x, 0, 0⟩, ⟨v, 0, 0⟩, sho_force_at ⟨x, 0, 0⟩, 1⟩
      = ⟨⟨sho_x x v, 0, 0⟩, ⟨sho_v x v, 0, 0⟩, sho_force_at ⟨sho_x x v, 0, 0⟩, 1⟩ := by
  simp only [sho_step, verlet_position_step, verlet_velocity_step,
    sho_force_at, Vec3.div, Vec3.scale, Vec3.add_def, Particle.mk.injEq,
    Vec3.mk.injEq]
  norm_num [sho_x, sho_v]
  refine ⟨by ring, by ring, by ring⟩

/-- The exactly conserved quadratic form of the Verlet oscillator step:
`(1 - dt^2/4)*x^2 + v^2` is invariant. -/
theorem sho_inv_step (x v : ℝ) :
    (1 - SHO_DT ^ 2 / 4) * (sho_x x v) ^ 2 + (sho_v x v) ^ 2
      = (1 - SHO_DT ^ 2 / 4) * x ^ 2 + v ^ 2 := by
  unfold sho_v sho_x
  ring

/-- Every reachable oscillator state lies on the x-axis with mass 1, its
force consistent with its position, and satisfies the conserved quadratic
form at its initial value. -/
theorem sho_state_shape (n : ℕ) :
    ∃ x v, sho_state n = ⟨⟨x, 0, 0⟩, ⟨v, 0, 0⟩, sho_force_at ⟨x, 0, 0⟩, 1⟩
      ∧ (1 - SHO_DT ^ 2 / 4) * x ^ 2 + v ^ 2 = 1 - SHO_DT ^ 2 / 4 := by
  induction n with
  | zero =>
    refine ⟨1, 0, rfl, by ring⟩
  | succ n ih =>
    obtain ⟨x, v, hshape, hinv⟩ := ih
    refine ⟨sho_x x v, sho_v x v, ?_, ?_⟩
    · rw [sho_state, Function.iterate_succ_apply']
      rw [show sho_step^[n] sho_init = sho_state n from rfl, hshape,
        sho_step_eval]
    · rw [sho_inv_step, hinv]

/-! ## Claim theorems -/

/-- C2: Verlet phase 1 sets `position` to
`position + velocity*dt + 0.5*(force/mass)*dt^2` and returns `force/mass`,
leaving velocity and accumulated force unchanged; phase 2, given `a_old`,
sets `velocity` to `velocity + 0.5*(a_old + force/mass)*dt`, leaving
position and accumulated force unchanged — for every particle and dt. -/
theorem C2_verlet_two_phase (p : Particle) (a_old : Vec3) (dt : ℝ) :
    (verlet_position_step p dt).1.position
      = p.position + Vec3.scale dt p.velocity
        + Vec3.scale (0.5 * dt ^ 2) (p.force.div p.mass)
  ∧ (verlet_position_step p dt).2 = p.force.div p.mass
  ∧ (verlet_position_step p dt).1.velocity = p.velocity
  ∧ (verlet_position_step p dt).1.force = p.force
  ∧ (verlet_velocity_step p a_old dt).velocity
      = p.velocity + Vec3.scale (0.5 * dt) (a_old + p.force.div p.mass)
  ∧ (verlet_velocity_step p a_old dt).position = p.position
  ∧ (verlet_velocity_step p a_old dt).force = p.force := by
  refine ⟨?_, rfl, rfl, rfl, rfl, rfl, rfl⟩
  simp only [verlet_position_step, Vec3.scale, Vec3.div, Vec3.add_def,
    Vec3.mk.injEq]
  refine ⟨by ring, by ring, by ring⟩

/-- C10: the touch anchor's invariant `active == selected_entity.is_some()`
holds in the default state, is preserved by `begin`, `update_position` and
`end`, and therefore holds after any sequence of those operations. -/
theorem C10_touch_anchor_invariant :
    (TouchInput.default.active = TouchInput.default.selected_entity.isSome)
  ∧ (∀ (t : TouchInput) (op : TouchOp),
      t.active = t.selected_entity.isSome →
      (t.apply op).active = (t.apply op).selected_entity.isSome)
  ∧ (∀ ops : List TouchOp,
      (TouchInput.run ops).active = (TouchInput.run ops).selected_entity.isSome) := by
  have hstep : ∀ (t : TouchInput) (op : TouchOp),
      t.active = t.selected_entity.isSome →
      (t.apply op).active = (t.apply op).selected_entity.isSome := by
    intro t op h
    cases op <;>
      simp [TouchInput.apply, TouchInput.begin, TouchInput.update_position,
        TouchInput.endDrag, h]
  refine ⟨rfl, hstep, ?_⟩
  intro ops
  have key : ∀ (l : List TouchOp) (t : TouchInput),
      t.active = t.selected_entity.isSome →
      (l.foldl TouchInput.apply t).active
        = (l.foldl TouchInput.apply t).selected_entity.isSome := by
    intro l
    induction l with
    | nil => intro t h; exact h
    | cons op rest ih => intro t h; exact ih _ (hstep t op h)
  exact key ops TouchInput.default rfl

/-- C8: whenever the anchor is idle (`active = false`), the driver's
spring-force system leaves the world — every particle's position, velocity
and accumulated force — unchanged. -/
theorem C8_spring_noop_when_idle (touch : TouchInput) (cfg : SpringConfig)
    (w : World) (h : touch.active = false) :
    apply_spring_force touch cfg w = w := by
  simp [apply_spring_force, h]

theorem C8_spring_noop_when_idle_witness :
    apply_spring_force TouchInput.default SpringConfig.default
      ⟨[Proton.new ⟨1, 0, 0⟩], [Electron.new Vec3.zero]⟩
    = ⟨[Proton.new ⟨1, 0, 0⟩], [Electron.new Vec3.zero]⟩ :=
  C8_spring_noop_when_idle TouchInput.default SpringConfig.default
    ⟨[Proton.new ⟨1, 0, 0⟩], [Electron.new Vec3.zero]⟩ rfl

/-- C3: the Coulomb force law fails (panics, modelled as `none`) exactly at
coincident positions / zero distance, and returns a value for every
positive distance. -/
theorem C3_coulomb_singularity (q1 q2 d : ℝ) (r1 r2 : Vec3)
    (hd : 0 < d) (hne : r1 ≠ r2) :
    coulomb_force q1 q2 r1 r1 = none
  ∧ coulomb_force_magnitude q1 q2 0 = none
  ∧ (coulomb_force q1 q2 r1 r2).isSome = true
  ∧ (coulomb_force_magnitude q1 q2 d).isSome = true := by
  refine ⟨?_, ?_, ?_, ?_⟩
  · have hzero : (r1 - r1) = Vec3.zero := (Vec3.sub_eq_zero_iff r1 r1).mpr rfl
    have hlen : (r1 - r1).length = 0 := by
      rw [hzero]; exact (Vec3.length_eq_zero_iff _).mpr rfl
    simp [coulomb_force, hlen]
  · simp [coulomb_force_magnitude]
  · have hpos : 0 < (r1 - r2).length :=
      Vec3.length_pos_of_ne _ (fun h => hne ((Vec3.sub_eq_zero_iff r1 r2).mp h))
    simp [coulomb_force, hpos]
  · simp [coulomb_force_magnitude, hd]

theorem C3_coulomb_singularity_witness :
    coulomb_force 1 1 ⟨1, 0, 0⟩ ⟨1, 0, 0⟩ = none
  ∧ coulomb_force_magnitude 1 1 0 = none
  ∧ (coulomb_force 1 1 ⟨1, 0, 0⟩ ⟨0, 0, 0⟩).isSome = true
  ∧ (coulomb_force_magnitude 1 1 1).isSome = true :=
  C3_coulomb_singularity 1 1 1 ⟨1, 0, 0⟩ ⟨0, 0, 0⟩ one_pos
    (by simp [Vec3.mk.injEq])

/-- C5: Newton's third law — for distinct positions, the Coulomb force on
charge 1 due to charge 2 is the componentwise negation of the force on
charge 2 due to charge 1. -/
theorem C5_newton_third_law (q1 q2 : ℝ) (r1 r2 : Vec3) (hne : r1 ≠ r2) :
    ∃ F, coulomb_force q1 q2 r1 r2 = some F
      ∧ coulomb_force q2 q1 r2 r1 = some F.neg := by
  have hpos : 0 < (r1 - r2).length :=
    Vec3.length_pos_of_ne _ (fun h => hne ((Vec3.sub_eq_zero_iff r1 r2).mp h))
  have hcomm : (r2 - r1).length = (r1 - r2).length := Vec3.length_sub_comm r2 r1
  have hpos2 : 0 < (r2 - r1).length := hcomm ▸ hpos
  refine ⟨Vec3.scale
      (COULOMB_CONSTANT * q1 * q2 / ((r1 - r2).length * (r1 - r2).length))
      ((r1 - r2).div (r1 - r2).length), ?_, ?_⟩
  · simp only [coulomb_force]
    rw [if_pos hpos]
  · simp only [coulomb_force]
    rw [if_pos hpos2, hcomm]
    congr 1
    cases r1; cases r2
    simp only [Vec3.sub_def, Vec3.scale, Vec3.div, Vec3.neg, Vec3.mk.injEq]
    refine ⟨?_, ?_, ?_⟩ <;> ring

/-- C4 (amended): for configurations with `0 ≤ max_force`, the spring force
is the raw value `stiffness*(target-pos) - damping*vel` when its magnitude
is within `max_force`, and otherwise the rescale of the raw value to
magnitude exactly `max_force` in the raw direction; the clamp is a value,
never an error. -/
theorem C4_spring_clamp_amended (cfg : SpringConfig) (ppos pvel tpos : Vec3)
    (hmf : 0 ≤ cfg.max_force) :
    ((spring_raw cfg ppos pvel tpos).length ≤ cfg.max_force →
        spring_force ppos pvel tpos cfg = spring_raw cfg ppos pvel tpos)
  ∧ (cfg.max_force < (spring_raw cfg ppos pvel tpos).length →
        spring_force ppos pvel tpos cfg
          = Vec3.scale (cfg.max_force / (spring_raw cfg ppos pvel tpos).length)
              (spring_raw cfg ppos pvel tpos)
        ∧ (spring_force ppos pvel tpos cfg).length = cfg.max_force) := by
  have hunfold : spring_force ppos pvel tpos cfg
      = if cfg.max_force < (spring_raw cfg ppos pvel tpos).length then
          Vec3.scale cfg.max_force (spring_raw cfg ppos pvel tpos).normalize
        else spring_raw cfg ppos pvel tpos := rfl
  constructor
  · intro hle
    rw [hunfold, if_neg (not_lt.mpr hle)]
  · intro hlt
    have hL : 0 < (spring_raw cfg ppos pvel tpos).length := lt_of_le_of_lt hmf hlt
    have hres : spring_force ppos pvel tpos cfg
        = Vec3.scale (cfg.max_force / (spring_raw cfg ppos pvel tpos).length)
            (spring_raw cfg ppos pvel tpos) := by
      rw [hunfold, if_pos hlt, Vec3.ext_iff]
      simp only [Vec3.normalize, Vec3.scale, Vec3.div]
      refine ⟨by ring, by ring, by ring⟩
    refine ⟨hres, ?_⟩
    rw [hres, Vec3.length_scale, abs_of_nonneg (div_nonneg hmf hL.le),
      div_mul_cancel₀ _ (ne_of_gt hL)]

theorem C4_spring_clamp_amended_witness :
    ((spring_raw ⟨1, 0, 2⟩ ⟨0, 0, 0⟩ ⟨0, 0, 0⟩ ⟨1, 0, 0⟩).length ≤ 2 →
        spring_force ⟨0, 0, 0⟩ ⟨0, 0, 0⟩ ⟨1, 0, 0⟩ ⟨1, 0, 2⟩
          = spring_raw ⟨1, 0, 2⟩ ⟨0, 0, 0⟩ ⟨0, 0, 0⟩ ⟨1, 0, 0⟩)
  ∧ ((2 : ℝ) < (spring_raw ⟨1, 0, 2⟩ ⟨0, 0, 0⟩ ⟨0, 0, 0⟩ ⟨1, 0, 0⟩).length →
        spring_force ⟨0, 0, 0⟩ ⟨0, 0, 0⟩ ⟨1, 0, 0⟩ ⟨1, 0, 2⟩
          = Vec3.scale (2 / (spring_raw ⟨1, 0, 2⟩ ⟨0, 0, 0⟩ ⟨0, 0, 0⟩ ⟨1, 0, 0⟩).length)
              (spring_raw ⟨1, 0, 2⟩ ⟨0, 0, 0⟩ ⟨0, 0, 0⟩ ⟨1, 0, 0⟩)
        ∧ (spring_force ⟨0, 0, 0⟩ ⟨0, 0, 0⟩ ⟨1, 0, 0⟩ ⟨1, 0, 2⟩).length = 2) :=
  C4_spring_clamp_amended ⟨1, 0, 2⟩ ⟨0, 0, 0⟩ ⟨0, 0, 0⟩ ⟨1, 0, 0⟩ (by norm_num)

/-- C4 (counterexample): with `max_force = -1`, stiffness 1, no damping,
a unit displacement exceeds `max_force`, yet the clamped result has
magnitude `1`, not "exactly `max_force`" as the claim states for every
configuration. -/
theorem C4_spring_clamp_counterexample :
    (⟨1, 0, -1⟩ : SpringConfig).max_force
        < (spring_raw ⟨1, 0, -1⟩ ⟨0, 0, 0⟩ ⟨0, 0, 0⟩ ⟨1, 0, 0⟩).length
  ∧ (spring_force ⟨0, 0, 0⟩ ⟨0, 0, 0⟩ ⟨1, 0, 0⟩ ⟨1, 0, -1⟩).length
        ≠ (⟨1, 0, -1⟩ : SpringConfig).max_force := by
  have hraw : spring_raw ⟨1, 0, -1⟩ ⟨0, 0, 0⟩ ⟨0, 0, 0⟩ ⟨1, 0, 0⟩ = ⟨1, 0, 0⟩ := by
    simp [spring_raw, Vec3.sub_def, Vec3.scale, Vec3.add_def]
  constructor
  · rw [hraw, Vec3.length_mk_x]; norm_num
  · rw [spring_force_neg_clamp_eval, Vec3.length_mk_x]; norm_num

/-- C7 (counterexample): a `SpringConfig` with negative `max_force` is
constructed without any rejection, and the simulation's spring force law
happily computes with it — no validation happens before stepping. -/
theorem C7_invalid_config_counterexample :
    (SpringConfig.mk 1 0 (-1)).max_force < 0
  ∧ spring_force ⟨0, 0, 0⟩ ⟨0, 0, 0⟩ ⟨1, 0, 0⟩ (SpringConfig.mk 1 0 (-1))
      = Vec3.mk (-1) 0 0 :=
  ⟨by norm_num, spring_force_neg_clamp_eval⟩

/-- C7 (amended): no construction-time validation exists.  Non-positive
mass cannot arise because particle masses are the fixed positive species
constants, and the substep count is the fixed positive constant 10; but
`SpringConfig` stores whatever values it is given, negative `max_force`
included. -/
theorem C7_construction_amended (pos : Vec3) (s d m : ℝ) :
    (Proton.new pos).mass = PROTON_MASS ∧ 0 < PROTON_MASS
  ∧ (Electron.new pos).mass = ELECTRON_MASS ∧ 0 < ELECTRON_MASS
  ∧ 0 < SUBSTEPS
  ∧ (SpringConfig.mk s d m).max_force = m :=
  ⟨rfl, constants_pos.2.2.2, rfl, constants_pos.2.2.1,
    by norm_num [SUBSTEPS], rfl⟩

/-- Shared evaluation: the `apply_coulomb_forces` system on a world holding
one proton at `(1,0,0)` and one electron at the origin, both force-free. -/
theorem apply_coulomb_forces_pair_eval :
    apply_coulomb_forces
        ⟨[⟨⟨1, 0, 0⟩, Vec3.zero, Vec3.zero, PROTON_MASS⟩],
         [⟨⟨0, 0, 0⟩, Vec3.zero, Vec3.zero, ELECTRON_MASS⟩]⟩
      = some ⟨[⟨⟨1, 0, 0⟩, Vec3.zero,
                ⟨COULOMB_CONSTANT * Proton.charge * Electron.charge, 0, 0⟩,
                PROTON_MASS⟩],
              [⟨⟨0, 0, 0⟩, Vec3.zero,
                ⟨-(COULOMB_CONSTANT * Electron.charge * Proton.charge), 0, 0⟩,
                ELECTRON_MASS⟩]⟩ := by
  simp [apply_coulomb_forces, add_coulomb_from, List.mapM.loop, Proton.new,
    Electron.new, coulomb_force_unit_x, coulomb_force_unit_x_neg,
    Particle.apply_force, Vec3.add_def, Vec3.zero, Vec3.mk.injEq]

/-- The Coulomb force between the example proton and electron is nonzero
(strictly negative x-component on the proton). -/
theorem pair_force_neg : COULOMB_CONSTANT * Proton.charge * Electron.charge < 0 := by
  have hk : 0 < COULOMB_CONSTANT := constants_pos.1
  have he : 0 < ELEMENTARY_CHARGE := constants_pos.2.1
  have h1 : 0 < COULOMB_CONSTANT * Proton.charge := by
    have : 0 < Proton.charge := he
    exact mul_pos hk this
  have h2 : Electron.charge < 0 := neg_lt_zero.mpr he
  exact mul_neg_of_pos_of_neg h1 h2

/-- C6 (counterexample): the driver computes forces once per frame, before
`physics_step`; at the state entering the first substep the proton's
accumulated force is the (nonzero) Coulomb force, so the accumulated force
is not zero at the start of every substep. -/
theorem C6_force_nonzero_entering_first_substep :
    ∃ w', apply_coulomb_forces ⟨[Proton.new ⟨1, 0, 0⟩], [Electron.new ⟨0, 0, 0⟩]⟩
            = some w'
      ∧ w'.protons.map Particle.force ≠ [Vec3.zero] := by
  refine ⟨_, apply_coulomb_forces_pair_eval, ?_⟩
  have hne : COULOMB_CONSTANT * Proton.charge * Electron.charge ≠ 0 :=
    ne_of_lt pair_force_neg
  simp [Vec3.zero, Vec3.mk.injEq, hne]

/-- C6 (amended): every particle's accumulated force is zero at the end of
every completed substep of `physics_step` (each substep ends by clearing
every particle's force), hence also at the start of every substep after
the first; at the start of the first substep it holds the forces the
frame's force systems accumulated. -/
theorem C6_forces_cleared_after_substep (sub_dt : ℝ) (w : World) (p : Particle)
    (hp : p ∈ (code_substep sub_dt w).protons
        ∨ p ∈ (code_substep sub_dt w).electrons) :
    p.force = Vec3.zero := by
  rcases hp with hp | hp <;>
  · rcases List.mem_map.mp hp with ⟨q, _, rfl⟩
    rfl

theorem C6_forces_cleared_after_substep_witness :
    (substep_particle 1 (Proton.new ⟨1, 0, 0⟩)).force = Vec3.zero :=
  C6_forces_cleared_after_substep 1 ⟨[Proton.new ⟨1, 0, 0⟩], []⟩
    (substep_particle 1 (Proton.new ⟨1, 0, 0⟩))
    (Or.inl (by simp [code_substep]))

theorem C5_newton_third_law_witness :
    ∃ F, coulomb_force 1 (-1) ⟨1, 0, 0⟩ ⟨0, 0, 0⟩ = some F
      ∧ coulomb_force (-1) 1 ⟨0, 0, 0⟩ ⟨1, 0, 0⟩ = some F.neg :=
  C5_newton_third_law 1 (-1) ⟨1, 0, 0⟩ ⟨0, 0, 0⟩ (by simp [Vec3.mk.injEq])

/-- C1 (divergence witness for the code bug): on a frame with a proton at
`(1,0,0)` and an electron at the origin (both at rest, forces cleared —
exactly the state of every substep after the first), the code's substep
(`physics_step`) leaves the electron's velocity at zero, because it never
recomputes any pairwise force between phase 1 and phase 2; under the
claimed ordering (phase 1 for all, recompute Coulomb forces at the
advanced positions, then phase 2) the electron's velocity x-component
becomes strictly positive.  The code contradicts the integrator's own
documented caller obligation. -/
theorem C1_substep_ordering_divergence :
    (code_substep 1 ⟨[Proton.new ⟨1, 0, 0⟩], [Electron.new ⟨0, 0, 0⟩]⟩).electrons.map
        (fun e => e.velocity.x) = [0]
  ∧ ∃ w', spec_substep TouchInput.default SpringConfig.default 1
        ⟨[Proton.new ⟨1, 0, 0⟩], [Electron.new ⟨0, 0, 0⟩]⟩ = some w'
      ∧ w'.electrons.map (fun e => e.velocity.x)
          = [0.5 * (-(COULOMB_CONSTANT * Electron.charge * Proton.charge)
              / ELECTRON_MASS)]
      ∧ (0 : ℝ) < 0.5 * (-(COULOMB_CONSTANT * Electron.charge * Proton.charge)
              / ELECTRON_MASS) := by
  constructor
  · simp [code_substep, substep_particle, verlet_position_step,
      verlet_velocity_step, Particle.clear_forces, Electron.new, Vec3.div,
      Vec3.scale, Vec3.add_def, Vec3.zero]
  · have hP1 : verlet_position_step (Proton.new ⟨1, 0, 0⟩) 1
        = (Proton.new ⟨1, 0, 0⟩, ⟨0, 0, 0⟩) :=
      verlet_position_step_rest ⟨1, 0, 0⟩ PROTON_MASS 1
    have hE1 : verlet_position_step (Electron.new ⟨0, 0, 0⟩) 1
        = (Electron.new ⟨0, 0, 0⟩, ⟨0, 0, 0⟩) :=
      verlet_position_step_rest ⟨0, 0, 0⟩ ELECTRON_MASS 1
    have hspring : apply_spring_force TouchInput.default SpringConfig.default
        ⟨[⟨⟨1, 0, 0⟩, Vec3.zero, Vec3.zero, PROTON_MASS⟩],
         [⟨⟨0, 0, 0⟩, Vec3.zero, Vec3.zero, ELECTRON_MASS⟩]⟩
        = ⟨[⟨⟨1, 0, 0⟩, Vec3.zero, Vec3.zero, PROTON_MASS⟩],
           [⟨⟨0, 0, 0⟩, Vec3.zero, Vec3.zero, ELECTRON_MASS⟩]⟩ :=
      apply_spring_force_of_inactive _ _ _ rfl
    have heval : spec_substep TouchInput.default SpringConfig.default 1
        ⟨[Proton.new ⟨1, 0, 0⟩], [Electron.new ⟨0, 0, 0⟩]⟩
      = some ⟨[(verlet_velocity_step
                  ⟨⟨1, 0, 0⟩, Vec3.zero,
                    ⟨COULOMB_CONSTANT * Proton.charge * Electron.charge, 0, 0⟩,
                    PROTON_MASS⟩ ⟨0, 0, 0⟩ 1).clear_forces],
              [(verlet_velocity_step
                  ⟨⟨0, 0, 0⟩, Vec3.zero,
                    ⟨-(COULOMB_CONSTANT * Electron.charge * Proton.charge), 0, 0⟩,
                    ELECTRON_MASS⟩ ⟨0, 0, 0⟩ 1).clear_forces]⟩ := by
      simp only [spec_substep, List.map_cons, List.map_nil, hP1, hE1]
      simp only [Particle.clear_forces, Proton.new, Electron.new]
      rw [hspring, apply_coulomb_forces_pair_eval]
      rfl
    refine ⟨_, heval, ?_, ?_⟩
    · simp [verlet_velocity_step, Particle.clear_forces, Vec3.div, Vec3.scale,
        Vec3.add_def, Vec3.zero]
    · have hneg : COULOMB_CONSTANT * Electron.charge * Proton.charge < 0 := by
        have h := pair_force_neg
        nlinarith [h]
      have hm : 0 < ELECTRON_MASS := constants_pos.2.2.1
      have : 0 < -(COULOMB_CONSTANT * Electron.charge * Proton.charge) := by
        linarith
      positivity

/-- C9: for the harmonic oscillator `F = -k*x` with `m = 1`, `k = 1`,
`x0 = 1`, zero initial velocity and `dt = 0.001`, the two-phase Verlet
integrator (force recomputed at the new position between the phases)
leaves the total mechanical energy within 0.1% of its initial value 0.5
after 10,000 steps. -/
theorem C9_sho_energy_drift :
    sho_energy (sho_state 0) = 0.5
  ∧ |sho_energy (sho_state 10000) - 0.5| < 0.001 * 0.5 := by
  constructor
  · norm_num [sho_state, sho_init, sho_energy, kinetic_energy, Vec3.normSq,
      Vec3.zero]
  · obtain ⟨x, v, hshape, hinv⟩ := sho_state_shape 10000
    rw [hshape]
    have hE : sho_energy ⟨⟨x, 0, 0⟩, ⟨v, 0, 0⟩, sho_force_at ⟨x, 0, 0⟩, 1⟩
        = 0.5 * x ^ 2 + 0.5 * v ^ 2 := by
      show 0.5 * 1 * x ^ 2 + 0.5 * 1 * (v * v + 0 * 0 + 0 * 0)
          = 0.5 * x ^ 2 + 0.5 * v ^ 2
      ring
    rw [hE]
    have hinv2 : (1 - (0.001 : ℝ) ^ 2 / 4) * x ^ 2 + v ^ 2
        = 1 - (0.001 : ℝ) ^ 2 / 4 := by
      simpa [SHO_DT] using hinv
    rw [abs_lt]
    constructor <;> nlinarith [sq_nonneg x, sq_nonneg v, hinv2]

end

end DynaChem
